import Mathlib

/-!
# Verification of the `ai_init` installer scripts

A shallow embedding of the three installer scripts of the repository:

* `claude_init/setup_claude_tasks.py` — the task-system installer
  (`ClaudeTasksSetup`): directory creation, guarded template writes, the
  `CLAUDE.md` merge routine, and the `.gitignore` update;
* `setup_test_dashboard.py` — the dashboard installer
  (`TestDashboardSetup`): the clone scratch-directory lifecycle and the
  `package.json` patch;
* `setup_all.py` — the orchestrator (`AIInitSetup`).

Python strings are modelled as `List Char` (`Content`); the filesystem the
installer touches is a finite map from target-relative path strings to
optional contents, together with the set of existing directories.  The
embedded markdown template payloads never influence a control decision of
the installer and are never read back, so they appear as parameters of the
model (`Templates`); every string the code *tests* or *merges*
(`reference_section`, the marker substrings, the `.gitignore` entries) is
transcribed verbatim.
-/

set_option maxRecDepth 4000

/-- A Python string, modelled as its list of characters. -/
abbrev Content := List Char

/-- Coerce a Lean string literal to a `Content`. -/
def str (s : String) : Content := s.toList

/-- Python `s.startswith(pre)`. -/
def strStartsWith : Content → Content → Bool
  | _, [] => true
  | [], _ :: _ => false
  | c :: cs, p :: ps => c == p && strStartsWith cs ps

/-- Python `pat in s` (substring containment). -/
def strContains : Content → Content → Bool
  | [], pat => pat.isEmpty
  | c :: cs, pat => strStartsWith (c :: cs) pat || strContains cs pat

/-- Python `s.endswith(suf)`. -/
def strEndsWith (s suf : Content) : Bool :=
  strStartsWith s.reverse suf.reverse

/-- Python `s[s.find("\n")+1:]`, the slice used by `_update_existing_claude_md`
to drop the first line.  When the string has no newline, Python `find`
returns `-1`, so the slice starts at index `0` and the whole string is kept. -/
def pyDropFirstLine (s : Content) : Content :=
  if s.contains '\n' then (s.dropWhile (fun c => c != '\n')).drop 1 else s

/-- Python `s.split("\n")`: the maximal `'\n'`-free segments of `s`
(always at least one segment, segments may be empty). -/
def splitLines : Content → List Content
  | [] => [[]]
  | c :: rest =>
    if c = '\n' then [] :: splitLines rest
    else
      match splitLines rest with
      | [] => [[c]]
      | l :: ls => (c :: l) :: ls

/-- The first line of a string (everything before the first `'\n'`). -/
def firstLine (s : Content) : Content :=
  s.takeWhile (fun c => c != '\n')

/-- Python `"\n".join(l)`. -/
def joinNewline : List Content → Content
  | [] => []
  | [x] => x
  | x :: y :: ys => x ++ '\n' :: joinNewline (y :: ys)

/-! ## The filesystem fragment the installers touch -/

/-- The mutable target-directory tree, restricted to what the installers
inspect: file contents by target-relative path, and the set of existing
directories. -/
structure FS where
  dirs : List String
  files : String → Option Content

/-- Python `Path(p).exists()`: true for an existing directory or file. -/
def FS.pathExists (fs : FS) (p : String) : Bool :=
  fs.dirs.contains p || (fs.files p).isSome

/-- Python `path.write_text(c)` (also `shutil.copy2` onto `path`). -/
def FS.write (fs : FS) (p : String) (c : Content) : FS :=
  { fs with files := fun q => if q = p then some c else fs.files q }

/-- Python `path.mkdir(parents=True, exist_ok=True)`.  The installer creates
parents before children, so registering the single directory is faithful. -/
def FS.mkdir (fs : FS) (d : String) : FS :=
  if fs.dirs.contains d then fs else { fs with dirs := d :: fs.dirs }

/-- The guard every template write of `setup_claude_tasks.py` uses: write when
the destination does not exist or `--force` is set, otherwise skip.  (The
source phrases it either as `if not X.exists() or self.force: write` or the
equivalent `if X.exists() and not self.force: skip else: write`.) -/
def FS.writeIfAbsentOrForce (fs : FS) (force : Bool) (p : String) (c : Content) : FS :=
  if !(fs.pathExists p) || force then fs.write p c else fs

namespace ClaudeTasksSetup

/-- The flags of `ClaudeTasksSetup` relevant to the embedded-template
configuration (`source=None`): `--force` and `--no-git`. -/
structure Config where
  force : Bool
  noGit : Bool

/-- The template payloads written by `_create_from_templates`,
`_create_todo_files`, `_create_bdd_files` and `_create_claude_commands`,
after `[DATE]` substitution.  The literal markdown text of these payloads is
never read back or tested by the installer, so the model abstracts over it.
`todoCommand` is the text written by `_create_todo_files` (line 635) and
`todoCommand2` the text written by `_create_claude_commands` (line 988);
both target the same path `.claude/commands/todo.md`. -/
structure Templates where
  quickReference : Content
  principlesQuickCard : Content
  activeTasks : Content
  bddProcess : Content
  todoList : Content
  todoCommand : Content
  exampleFeature : Content
  commonSteps : Content
  cucumberConfig : Content
  behaviorsReadme : Content
  refreshCommand : Content
  todoCommand2 : Content

/-- The directory list of `_create_directory_structure` (lines 371-382),
in source order. -/
def directoriesList : List String :=
  ["claude_tasks", "claude_tasks/active", "claude_tasks/finished",
   "claude_tasks/todo", "claude_tasks/behaviors", "claude_tasks/behaviors/features",
   "claude_tasks/behaviors/step_definitions", "claude_tasks/behaviors/reports",
   ".claude", ".claude/commands"]

/-- `_create_directory_structure`: `mkdir` each directory that is missing. -/
def create_directory_structure (fs : FS) : FS :=
  directoriesList.foldl FS.mkdir fs

/-- One guarded template write. -/
def applyWrite (force : Bool) (fs : FS) (pc : String × Content) : FS :=
  fs.writeIfAbsentOrForce force pc.1 pc.2

/-- The (path, payload) pairs written by `_create_from_templates` and the
three helpers it calls, in execution order: the `EMBEDDED_TEMPLATES` dict
(insertion order: QUICK_REFERENCE, PRINCIPLES_QUICK_CARD, ACTIVE_TASKS,
BDD_PROCESS; `ACTIVE_TASKS.md` goes to `active/`), then `_create_todo_files`,
`_create_bdd_files`, `_create_claude_commands`. -/
def templateWrites (t : Templates) : List (String × Content) :=
  [("claude_tasks/QUICK_REFERENCE.md", t.quickReference),
   ("claude_tasks/PRINCIPLES_QUICK_CARD.md", t.principlesQuickCard),
   ("claude_tasks/active/ACTIVE_TASKS.md", t.activeTasks),
   ("claude_tasks/BDD_PROCESS.md", t.bddProcess),
   ("claude_tasks/todo/TODO_LIST.md", t.todoList),
   (".claude/commands/todo.md", t.todoCommand),
   ("claude_tasks/behaviors/features/example.feature", t.exampleFeature),
   ("claude_tasks/behaviors/step_definitions/common_steps.js", t.commonSteps),
   ("cucumber.js", t.cucumberConfig),
   ("claude_tasks/behaviors/README.md", t.behaviorsReadme),
   (".claude/commands/refresh.md", t.refreshCommand),
   (".claude/commands/todo.md", t.todoCommand2)]

/-- `_create_from_templates` (lines 523-546) plus its helper calls: every
write is guarded by `not exists or force`. -/
def create_from_templates (force : Bool) (t : Templates) (fs : FS) : FS :=
  (templateWrites t).foldl (applyWrite force) fs

/-- The `reference_section` literal of `_update_existing_claude_md`
(lines 1014-1031), verbatim. -/
def reference_section : Content := str
"# CLAUDE.md

## 📋 Claude Development Process
This project uses the Claude Task Management System with BDD+TDD methodology for AI-assisted development.

### Key Documents
- `claude_tasks/QUICK_REFERENCE.md` - Quick commands and BDD+TDD workflow
- `claude_tasks/BDD_PROCESS.md` - Complete 9-step methodology
- `claude_tasks/PRINCIPLES_QUICK_CARD.md` - Core development principles
- `claude_tasks/active/ACTIVE_TASKS.md` - Current task tracking
- `claude_tasks/behaviors/` - BDD specifications and living documentation

### Development Workflow
SPECIFY → RED → GREEN → REFACTOR → VALIDATE

---

"

/-- The marker test of `_update_existing_claude_md` (line 1007): the file
already references the task system when it contains both the substring
`claude_tasks` and the substring `BDD+TDD`.  (The `elif` branch at line 1010
only prints and does not change behaviour.) -/
def hasTaskMarker (s : Content) : Bool :=
  strContains s (str "claude_tasks") && strContains s (str "BDD+TDD")

/-- The merged content computed by `_update_existing_claude_md`
(lines 1033-1037): strip a leading `# CLAUDE.md` heading line, then prepend
the reference section. -/
def mergedClaudeMd (existing : Content) : Content :=
  let stripped :=
    if strStartsWith existing (str "# CLAUDE.md") then pyDropFirstLine existing
    else existing
  reference_section ++ stripped

/-- `_update_existing_claude_md` (lines 1000-1046): no-op when the marker is
present; otherwise back up `CLAUDE.md` to `CLAUDE.md.backup` — but only when
`force` is NOT set (line 1039) — and overwrite `CLAUDE.md` with the merge. -/
def update_existing_claude_md (force : Bool) (fs : FS) : FS :=
  let existing := (fs.files "CLAUDE.md").getD []
  if hasTaskMarker existing then fs
  else
    let fs1 := if force then fs else fs.write "CLAUDE.md.backup" existing
    fs1.write "CLAUDE.md" (mergedClaudeMd existing)

/-- `_handle_claude_md` (lines 993-998): update an existing `CLAUDE.md`,
or create a new one (with `source=None`, from the embedded template `tm`). -/
def handle_claude_md (force : Bool) (tm : Content) (fs : FS) : FS :=
  if fs.pathExists "CLAUDE.md" then update_existing_claude_md force fs
  else fs.write "CLAUDE.md" tm

/-- The `entries_to_add` list of `_update_gitignore` (lines 1176-1180),
verbatim. -/
def entries_to_add : List Content :=
  [str "\n# Claude task management", str "*.backup", str "CLAUDE.md.backup"]

/-- `_update_gitignore` (lines 1172-1201): skip when the existing `.gitignore`
contains the substring `claude_tasks`; otherwise append (after ensuring a
trailing newline) `"\n".join(entries_to_add) + "\n"`; create the file with
that text when it does not exist. -/
def update_gitignore (fs : FS) : FS :=
  match fs.files ".gitignore" with
  | some content =>
    if strContains content (str "claude_tasks") then fs
    else
      let content1 := if strEndsWith content (str "\n") then content
                      else content ++ str "\n"
      fs.write ".gitignore" (content1 ++ joinNewline entries_to_add ++ str "\n")
  | none => fs.write ".gitignore" (joinNewline entries_to_add ++ str "\n")

/-- `ClaudeTasksSetup.run` (lines 320-367) in the embedded-template
configuration (`source=None`): capture the two existence checks, install the
`claude_tasks` tree when missing or forced, handle `CLAUDE.md` when missing
or forced, then update `.gitignore` unless `--no-git`.
`tm` is the `_get_claude_md_template` payload used when creating a fresh
`CLAUDE.md`. -/
def run (cfg : Config) (t : Templates) (tm : Content) (fs : FS) : FS :=
  let claude_tasks_exists := fs.pathExists "claude_tasks"
  let claude_md_exists := fs.pathExists "CLAUDE.md"
  let fs1 := if !claude_tasks_exists || cfg.force then
      create_from_templates cfg.force t (create_directory_structure fs)
    else fs
  let fs2 := if !claude_md_exists || cfg.force then handle_claude_md cfg.force tm fs1
    else fs1
  if !cfg.noGit then update_gitignore fs2 else fs2

end ClaudeTasksSetup

namespace TestDashboardSetup

/-! ### The clone scratch-directory lifecycle (`_clone_dashboard`) and the
`package.json` patch (`_update_dashboard_config`) of `setup_test_dashboard.py`. -/

/-- Outcome of the `git clone` subprocess of `_clone_dashboard` (lines
134-144): exit code 0, a non-zero exit (re-raised as `CalledProcessError`),
or exceeding the 60 s timeout (`TimeoutExpired`). -/
inductive CloneOutcome where
  | success
  | nonzeroExit
  | timedOut

/-- The exceptions `_clone_dashboard` can propagate. -/
inductive DashError where
  | calledProcessError
  | timeoutExpired
  | copyFailed

/-- `_clone_dashboard` (lines 102-176), restricted to the scratch-directory
lifecycle.  The SSH probe only chooses the clone URL (its exceptions are
swallowed by a bare `except`), and a failed `git checkout` of a requested
version only prints a warning; neither affects the scratch directory, which
is created by `tempfile.mkdtemp()` before the clone and removed by the
`finally` block whenever it still exists.  `copyRaises` models an exception
escaping `_copy_dashboard_files` (caught by the generic handler and
re-raised).  Returns the propagated result and whether the scratch directory
exists after the call. -/
def clone_dashboard (clone : CloneOutcome) (copyRaises : Bool) :
    Except DashError Unit × Bool :=
  -- the try block: result, plus whether the scratch directory exists at its end
  let body : Except DashError Unit × Bool :=
    -- temp_dir = tempfile.mkdtemp()
    match clone with
    | .timedOut => (Except.error DashError.timeoutExpired, true)
    | .nonzeroExit => (Except.error DashError.calledProcessError, true)
    | .success =>
      if copyRaises then (Except.error DashError.copyFailed, true)
      else (Except.ok (), true)
  -- finally: if temp_dir and Path(temp_dir).exists(): shutil.rmtree(temp_dir)
  (body.1, if body.2 then false else body.2)

/-- JSON values as loaded by `json.load` (numbers simplified to `Int`;
a JSON object is its ordered field list). -/
inductive Json where
  | null : Json
  | bool : Bool → Json
  | num : Int → Json
  | str : String → Json
  | arr : List Json → Json
  | obj : List (String × Json) → Json

mutual

/-- Python `str(v)` for a loaded JSON value, as interpolated into the
f-string building the new description.  Only the string case is ever
exercised by a well-formed `package.json`; the rendering of containers is a
simplified stand-in for Python's `repr`-style output and influences no
control decision. -/
def jsonStr : Json → String
  | .null => "None"
  | .bool true => "True"
  | .bool false => "False"
  | .num n => toString n
  | .str s => s
  | .arr xs => "[" ++ jsonStrList xs ++ "]"
  | .obj fields => "\x7b" ++ jsonStrFields fields ++ "\x7d"

def jsonStrList : List Json → String
  | [] => ""
  | [x] => jsonStr x
  | x :: y :: ys => jsonStr x ++ ", " ++ jsonStrList (y :: ys)

def jsonStrFields : List (String × Json) → String
  | [] => ""
  | [kv] => kv.1 ++ ": " ++ jsonStr kv.2
  | kv :: kv2 :: kvs => kv.1 ++ ": " ++ jsonStr kv.2 ++ ", " ++ jsonStrFields (kv2 :: kvs)

end

/-- Python dict lookup `d[k]` / `k in d` on the ordered field list. -/
def dictGet : List (String × Json) → String → Option Json
  | [], _ => none
  | kv :: rest, k => if kv.1 = k then some kv.2 else dictGet rest k

/-- Python dict assignment `d[k] = v`: replace the first binding of `k`
in place, or append a new binding. -/
def dictSet : List (String × Json) → String → Json → List (String × Json)
  | [], k, v => [(k, v)]
  | kv :: rest, k, v =>
    if kv.1 = k then (k, v) :: rest else kv :: dictSet rest k v

/-- `self.repo_url` (line 48). -/
def repo_url : String := "https://github.com/foolishimp/test_dd_dashboard.git"

/-- Python `package_data.get("name", "test-dd-dashboard")` (line 217) as it
is rendered into the description f-string: `str()` of the stored value when
the key is present, the default string otherwise. -/
def originalName (pkg : List (String × Json)) : String :=
  match dictGet pkg "name" with
  | some v => jsonStr v
  | none => "test-dd-dashboard"

/-- The `package.json` patch of `_update_dashboard_config` (lines 211-233):
capture the original name (`get` with default `"test-dd-dashboard"`), set
`name` to `"<target>-test-dashboard"`, set `description`, and add a
`repository` field when none is present.  (The `server.js` port patch at
lines 238-248 touches a different file and is outside this function's
`package.json` effect.) -/
def update_package_json (targetName : String) (pkg : List (String × Json)) :
    List (String × Json) :=
  let original_name := originalName pkg
  let pkg1 := dictSet pkg "name" (Json.str (targetName ++ "-test-dashboard"))
  let pkg2 := dictSet pkg1 "description"
    (Json.str ("Test dashboard for " ++ targetName ++ " project (from " ++
      original_name ++ ")"))
  if (dictGet pkg2 "repository").isSome then pkg2
  else dictSet pkg2 "repository"
    (Json.obj [("type", Json.str "git"), ("url", Json.str repo_url)])

end TestDashboardSetup

namespace ClaudeTasksSetup

/-- Outcome of the `git clone` subprocess of `_copy_from_source` (lines
399-403, `check=True`, no timeout configured): success, or any raised
exception (`CalledProcessError` on a non-zero exit). -/
inductive CloneOutcome where
  | success
  | failure

/-- The exceptions `_copy_from_source` can propagate. -/
inductive CopyError where
  | calledProcessError
  | fileNotFound
  | copyFailed

/-- `_copy_from_source` (lines 389-425), restricted to the scratch-directory
lifecycle.  For a git URL source, `tempfile.mkdtemp()` creates the scratch
directory before the clone; a local source never creates one (and raises
`FileNotFoundError` when missing).  `copyRaises` models an exception escaping
the `_copy_files` step.  The `finally` block removes the scratch directory
whenever it was created and still exists.  Returns the propagated result and
whether the scratch directory exists after the call. -/
def copy_from_source (isUrl localSourceExists : Bool)
    (clone : CloneOutcome) (copyRaises : Bool) :
    Except CopyError Unit × Bool :=
  -- the try block: result, plus whether the scratch directory exists at its end
  let body : Except CopyError Unit × Bool :=
    if isUrl then
      -- temp_dir = tempfile.mkdtemp(); git clone --depth 1 SOURCE temp_dir
      match clone with
      | .failure => (Except.error CopyError.calledProcessError, true)
      | .success =>
        if copyRaises then (Except.error CopyError.copyFailed, true)
        else (Except.ok (), true)
    else
      if !localSourceExists then (Except.error CopyError.fileNotFound, false)
      else if copyRaises then (Except.error CopyError.copyFailed, false)
      else (Except.ok (), false)
  -- finally: if temp_dir and Path(temp_dir).exists(): shutil.rmtree(temp_dir)
  (body.1, if body.2 then false else body.2)

end ClaudeTasksSetup

namespace AIInitSetup

/-! ### The orchestrator `setup_all.py` (`AIInitSetup`). -/

/-- The orchestrator flags that steer which sub-installers run
(`--claude-only` / `--dashboard-only`; `main` rejects setting both). -/
structure Config where
  claudeOnly : Bool
  dashboardOnly : Bool

/-- The environment of a run: whether each prerequisite installer script is
on disk, and (when run) whether its subprocess exits with code 0. -/
structure Env where
  claudeInstallerOnDisk : Bool
  dashboardInstallerOnDisk : Bool
  claudeInstallerExitZero : Bool
  dashboardInstallerExitZero : Bool

/-- What a run of the orchestrator did. -/
structure RunResult where
  validated : Bool
  missing : List String
  claudeRan : Bool
  dashboardRan : Bool
  success : Bool

/-- `_validate_installers` (lines 99-117): the report lines collected for
missing installer scripts, in source order (each abbreviated to its
identifying prefix; the source appends the script's absolute path, and a
placement note for the dashboard installer). -/
def validate_installers (env : Env) : List String :=
  (if !env.claudeInstallerOnDisk then ["Claude installer"] else []) ++
  (if !env.dashboardInstallerOnDisk then
      ["Dashboard installer",
       "Note: Dashboard installer should be at ai_init root, not in test-dashboard-module/"]
    else [])

/-- `AIInitSetup.run` (lines 47-97): abort (returning `False`) when any
installer script is missing; otherwise run the selected sub-installers —
`success &= installer()` evaluates the right-hand call unconditionally, so a
first failure does not prevent the second installer from running — and
aggregate their exit statuses by logical AND. -/
def run (cfg : Config) (env : Env) : RunResult :=
  let missing := validate_installers env
  if !missing.isEmpty then
    { validated := false, missing := missing, claudeRan := false,
      dashboardRan := false, success := false }
  else
    let installClaude := !cfg.dashboardOnly
    let installDashboard := !cfg.claudeOnly
    let success := true
    let success := if installClaude then success && env.claudeInstallerExitZero else success
    let success := if installDashboard then success && env.dashboardInstallerExitZero else success
    { validated := true, missing := [], claudeRan := installClaude,
      dashboardRan := installDashboard, success := success }

/-- `main` (lines 287-288): `sys.exit(0 if success else 1)`. -/
def exitCode (cfg : Config) (env : Env) : Nat :=
  if (run cfg env).success then 0 else 1

end AIInitSetup

/-! ## Spec-side vocabulary for the claims -/

/-- The title line of the new reference block prepended to `CLAUDE.md`. -/
def strTitle : Content := str "# CLAUDE.md"

/-- The number of lines of `s` equal to the reference-block title line
(`s.split("\n")` segments equal to `# CLAUDE.md`). -/
def titleCount (s : Content) : Nat :=
  (splitLines s).count strTitle

/-- The newline-terminated lines of `reference_section` (it ends with a
newline, so its final empty split segment merges with whatever follows). -/
def refNewlineLines : List Content :=
  (splitLines ClaudeTasksSetup.reference_section).dropLast

/-! ## Concrete fixtures for counterexamples and witnesses -/

/-- Template payloads instantiated with empty text: no claim depends on the
payload text, only on the paths and guards. -/
def T0 : ClaudeTasksSetup.Templates :=
  ⟨[], [], [], [], [], [], [], [], [], [], [], []⟩

/-- Default flags: no `--force`, `.gitignore` updates enabled. -/
def cfgPlain : ClaudeTasksSetup.Config := ⟨false, false⟩

/-- `--force` together with `--no-git`. -/
def cfgForceNoGit : ClaudeTasksSetup.Config := ⟨true, true⟩

/-- An empty target directory. -/
def fsEmpty : FS := ⟨[], fun _ => none⟩

/-- A target with an installed `claude_tasks/` tree and a lone `CLAUDE.md`. -/
def fsWithClaudeMd (c : Content) : FS :=
  ⟨["claude_tasks"], fun p => if p = "CLAUDE.md" then some c else none⟩

/-- A target whose only file is a `CLAUDE.md` (no `claude_tasks/`). -/
def fsOnlyClaudeMd (c : Content) : FS :=
  ⟨[], fun p => if p = "CLAUDE.md" then some c else none⟩

/-- The `.gitignore` block the installer itself appends/creates. -/
def gitignoreBlock : Content :=
  joinNewline ClaudeTasksSetup.entries_to_add ++ str "\n"

/-- A target that already carries the tool's own `.gitignore` block (hence
its marker comment header) plus installed `claude_tasks/` and `CLAUDE.md`. -/
def fsWithOwnGitignore : FS :=
  ⟨["claude_tasks"], fun p =>
    if p = "CLAUDE.md" then some (str "x")
    else if p = ".gitignore" then some gitignoreBlock
    else none⟩

/-- A target with a user `.gitignore` and installed `claude_tasks/` and
`CLAUDE.md`. -/
def fsUserGitignore : FS :=
  ⟨["claude_tasks"], fun p =>
    if p = "CLAUDE.md" then some (str "x")
    else if p = ".gitignore" then some (str "node_modules\n")
    else none⟩

/-- A typical cloned `package.json` without a `repository` field. -/
def pkgSample : List (String × TestDashboardSetup.Json) :=
  [("name", TestDashboardSetup.Json.str "test-dd-dashboard"),
   ("version", TestDashboardSetup.Json.str "1.0.0"),
   ("description", TestDashboardSetup.Json.str "A TDD dashboard"),
   ("scripts", TestDashboardSetup.Json.obj
      [("start", TestDashboardSetup.Json.str "node server.js")])]

/-! ## Frame and preservation lemmas for the filesystem model -/

theorem files_write (fs : FS) (p : String) (c : Content) (q : String) :
    (fs.write p c).files q = if q = p then some c else fs.files q := rfl

theorem dirs_write (fs : FS) (p : String) (c : Content) :
    (fs.write p c).dirs = fs.dirs := rfl

theorem files_mkdir (fs : FS) (d : String) : (FS.mkdir fs d).files = fs.files := by
  unfold FS.mkdir; split <;> rfl

theorem mkdir_contains_ne (fs : FS) (d p : String) (h : p ≠ d) :
    ((FS.mkdir fs d).dirs).contains p = fs.dirs.contains p := by
  unfold FS.mkdir
  split
  · rfl
  · show ((d :: fs.dirs).contains p) = _
    simp [List.contains_cons, h]

theorem wiaof_files_ne (fs : FS) (force : Bool) (p : String) (c : Content) (q : String)
    (h : q ≠ p) : (fs.writeIfAbsentOrForce force p c).files q = fs.files q := by
  unfold FS.writeIfAbsentOrForce
  split
  · rw [files_write]; simp [h]
  · rfl

theorem wiaof_dirs (fs : FS) (force : Bool) (p : String) (c : Content) :
    (fs.writeIfAbsentOrForce force p c).dirs = fs.dirs := by
  unfold FS.writeIfAbsentOrForce; split <;> rfl

theorem wiaof_false_preserves (fs : FS) (p : String) (c : Content) (q : String) (c₀ : Content)
    (h : fs.files q = some c₀) : (fs.writeIfAbsentOrForce false p c).files q = some c₀ := by
  by_cases hq : q = p
  · subst hq
    have hp : fs.pathExists q = true := by
      unfold FS.pathExists; rw [h]; simp
    unfold FS.writeIfAbsentOrForce
    rw [hp]
    simp [h]
  · rw [wiaof_files_ne fs false p c q hq]; exact h

namespace ClaudeTasksSetup

theorem foldl_applyWrite_files_of_not_mem (force : Bool) (q : String)
    (l : List (String × Content)) (h : q ∉ l.map Prod.fst) :
    ∀ fs : FS, (l.foldl (applyWrite force) fs).files q = fs.files q := by
  induction l with
  | nil => intro fs; rfl
  | cons pc rest ih =>
    rw [List.map_cons, List.mem_cons] at h
    push_neg at h
    intro fs
    rw [List.foldl_cons, ih h.2]
    exact wiaof_files_ne fs force pc.1 pc.2 q h.1

theorem foldl_applyWrite_dirs (force : Bool) (l : List (String × Content)) :
    ∀ fs : FS, (l.foldl (applyWrite force) fs).dirs = fs.dirs := by
  induction l with
  | nil => intro fs; rfl
  | cons pc rest ih =>
    intro fs
    rw [List.foldl_cons, ih]
    exact wiaof_dirs fs force pc.1 pc.2

theorem foldl_applyWrite_false_preserves (l : List (String × Content)) (q : String)
    (c₀ : Content) :
    ∀ fs : FS, fs.files q = some c₀ → (l.foldl (applyWrite false) fs).files q = some c₀ := by
  induction l with
  | nil => intro fs h; exact h
  | cons pc rest ih =>
    intro fs h
    rw [List.foldl_cons]
    exact ih _ (wiaof_false_preserves fs pc.1 pc.2 q c₀ h)

theorem foldl_mkdir_files (l : List String) :
    ∀ fs : FS, (l.foldl FS.mkdir fs).files = fs.files := by
  induction l with
  | nil => intro fs; rfl
  | cons d rest ih =>
    intro fs
    rw [List.foldl_cons, ih, files_mkdir]

theorem foldl_mkdir_contains_of_not_mem (p : String) (l : List String) (h : p ∉ l) :
    ∀ fs : FS, ((l.foldl FS.mkdir fs).dirs).contains p = fs.dirs.contains p := by
  induction l with
  | nil => intro fs; rfl
  | cons d rest ih =>
    rw [List.mem_cons] at h
    push_neg at h
    intro fs
    rw [List.foldl_cons, ih h.2, mkdir_contains_ne fs d p h.1]

theorem create_directory_structure_files (fs : FS) :
    (create_directory_structure fs).files = fs.files :=
  foldl_mkdir_files directoriesList fs

theorem create_directory_structure_contains_claudeMd (fs : FS) :
    ((create_directory_structure fs).dirs).contains "CLAUDE.md"
      = fs.dirs.contains "CLAUDE.md" :=
  foldl_mkdir_contains_of_not_mem "CLAUDE.md" directoriesList (by decide) fs

theorem templateWrites_keys (t : Templates) :
    (templateWrites t).map Prod.fst =
      ["claude_tasks/QUICK_REFERENCE.md", "claude_tasks/PRINCIPLES_QUICK_CARD.md",
       "claude_tasks/active/ACTIVE_TASKS.md", "claude_tasks/BDD_PROCESS.md",
       "claude_tasks/todo/TODO_LIST.md", ".claude/commands/todo.md",
       "claude_tasks/behaviors/features/example.feature",
       "claude_tasks/behaviors/step_definitions/common_steps.js", "cucumber.js",
       "claude_tasks/behaviors/README.md", ".claude/commands/refresh.md",
       ".claude/commands/todo.md"] := rfl

/-- None of the template writes targets `CLAUDE.md`, `CLAUDE.md.backup` or
`.gitignore`. -/
theorem special_not_in_templateKeys (t : Templates) (q : String)
    (hq : q = "CLAUDE.md" ∨ q = "CLAUDE.md.backup" ∨ q = ".gitignore") :
    q ∉ (templateWrites t).map Prod.fst := by
  rcases hq with h | h | h <;> subst h <;> rw [templateWrites_keys] <;> decide

theorem files_write_ne (fs : FS) (p : String) (c : Content) (q : String) (h : q ≠ p) :
    (fs.write p c).files q = fs.files q := by
  rw [files_write]; exact if_neg h

theorem create_from_templates_files_special (force : Bool) (t : Templates) (fs : FS)
    (q : String) (hq : q = "CLAUDE.md" ∨ q = "CLAUDE.md.backup" ∨ q = ".gitignore") :
    (create_from_templates force t fs).files q = fs.files q := by
  unfold create_from_templates
  exact foldl_applyWrite_files_of_not_mem force q (templateWrites t)
    (special_not_in_templateKeys t q hq) fs

theorem create_from_templates_dirs (force : Bool) (t : Templates) (fs : FS) :
    (create_from_templates force t fs).dirs = fs.dirs := by
  unfold create_from_templates
  exact foldl_applyWrite_dirs force (templateWrites t) fs

theorem create_from_templates_false_preserves (t : Templates) (fs : FS) (q : String)
    (c₀ : Content) (h : fs.files q = some c₀) :
    (create_from_templates false t fs).files q = some c₀ := by
  unfold create_from_templates
  exact foldl_applyWrite_false_preserves (templateWrites t) q c₀ fs h

theorem update_gitignore_files_ne (fs : FS) (q : String) (h : q ≠ ".gitignore") :
    (update_gitignore fs).files q = fs.files q := by
  unfold update_gitignore
  split
  · split
    · rfl
    · exact files_write_ne _ _ _ _ h
  · exact files_write_ne _ _ _ _ h

theorem update_gitignore_append (fs : FS) (c₀ : Content)
    (h : fs.files ".gitignore" = some c₀) :
    ∃ d : Content, (update_gitignore fs).files ".gitignore" = some (c₀ ++ d) := by
  unfold update_gitignore
  split
  · rename_i content heq
    have hc : c₀ = content := by
      rw [h] at heq
      exact Option.some.inj heq
    subst hc
    split
    · exact ⟨[], by rw [List.append_nil]; exact h⟩
    · split
      · exact ⟨joinNewline entries_to_add ++ str "\n",
          by simp [files_write, List.append_assoc]⟩
      · exact ⟨str "\n" ++ (joinNewline entries_to_add ++ str "\n"),
          by simp [files_write, List.append_assoc]⟩
  · rename_i heq
    rw [h] at heq
    cases heq

/-- Unfolding equation of `handle_claude_md`. -/
theorem handle_claude_md_eq (force : Bool) (tm : Content) (fs : FS) :
    handle_claude_md force tm fs
      = if fs.pathExists "CLAUDE.md" = true then update_existing_claude_md force fs
        else fs.write "CLAUDE.md" tm := rfl

/-- With `--force`, `_update_existing_claude_md` skips the backup copy. -/
theorem update_existing_force_eq (fs : FS) :
    update_existing_claude_md true fs
      = if hasTaskMarker ((fs.files "CLAUDE.md").getD []) = true then fs
        else fs.write "CLAUDE.md" (mergedClaudeMd ((fs.files "CLAUDE.md").getD [])) := rfl

/-- Without `--force`, `_update_existing_claude_md` first copies the file to
`CLAUDE.md.backup`. -/
theorem update_existing_nonforce_eq (fs : FS) :
    update_existing_claude_md false fs
      = if hasTaskMarker ((fs.files "CLAUDE.md").getD []) = true then fs
        else (fs.write "CLAUDE.md.backup" ((fs.files "CLAUDE.md").getD [])).write
              "CLAUDE.md" (mergedClaudeMd ((fs.files "CLAUDE.md").getD [])) := rfl

theorem handle_claude_md_marker_preserve (force : Bool) (tm : Content) (fs : FS)
    (c₀ : Content) (h : fs.files "CLAUDE.md" = some c₀) (hm : hasTaskMarker c₀ = true) :
    (handle_claude_md force tm fs).files "CLAUDE.md" = some c₀ := by
  have hp : fs.pathExists "CLAUDE.md" = true := by
    unfold FS.pathExists; rw [h]; simp
  rw [handle_claude_md_eq, if_pos hp]
  cases force
  · rw [update_existing_nonforce_eq, h]
    simp only [Option.getD_some]
    rw [if_pos hm]
    exact h
  · rw [update_existing_force_eq, h]
    simp only [Option.getD_some]
    rw [if_pos hm]
    exact h

theorem handle_claude_md_backup_of_force (tm : Content) (fs : FS)
    (hb : fs.files "CLAUDE.md.backup" = none) :
    (handle_claude_md true tm fs).files "CLAUDE.md.backup" = none := by
  rw [handle_claude_md_eq]
  split
  · rw [update_existing_force_eq]
    split
    · exact hb
    · rw [files_write_ne _ _ _ _ (by decide : ("CLAUDE.md.backup" : String) ≠ "CLAUDE.md")]
      exact hb
  · rw [files_write_ne _ _ _ _ (by decide : ("CLAUDE.md.backup" : String) ≠ "CLAUDE.md")]
    exact hb

theorem handle_claude_md_force_merge (tm : Content) (fs : FS) (c₀ : Content)
    (h : fs.files "CLAUDE.md" = some c₀) (hm : hasTaskMarker c₀ = false) :
    (handle_claude_md true tm fs).files "CLAUDE.md" = some (mergedClaudeMd c₀) := by
  have hp : fs.pathExists "CLAUDE.md" = true := by
    unfold FS.pathExists; rw [h]; simp
  rw [handle_claude_md_eq, if_pos hp, update_existing_force_eq, h]
  simp only [Option.getD_some]
  rw [if_neg (by rw [hm]; exact Bool.false_ne_true)]
  rw [files_write]
  simp

theorem handle_claude_md_false_preserves (tm : Content) (fs1 : FS) (path : String)
    (c₀ : Content) (h1 : fs1.files path = some c₀)
    (habs : fs1.pathExists "CLAUDE.md" = false) :
    (handle_claude_md false tm fs1).files path = some c₀ := by
  have hfile : fs1.files "CLAUDE.md" = none := by
    unfold FS.pathExists at habs
    cases hx : fs1.files "CLAUDE.md" with
    | none => rfl
    | some v => rw [hx] at habs; simp at habs
  have hne : path ≠ "CLAUDE.md" := by
    intro e
    rw [e, hfile] at h1
    cases h1
  rw [handle_claude_md_eq, if_neg (by rw [habs]; exact Bool.false_ne_true)]
  rw [files_write_ne _ _ _ _ hne]
  exact h1

end ClaudeTasksSetup

namespace ClaudeTasksSetup

/-- Decomposition of `run` into its three stages, matching the `let`
structure of the source. -/
theorem run_stages (cfg : Config) (t : Templates) (tm : Content) (fs : FS) :
    ∃ fs1 fs2 : FS,
      fs1 = (if (!(fs.pathExists "claude_tasks") || cfg.force) = true then
               create_from_templates cfg.force t (create_directory_structure fs) else fs) ∧
      fs2 = (if (!(fs.pathExists "CLAUDE.md") || cfg.force) = true then
               handle_claude_md cfg.force tm fs1 else fs1) ∧
      run cfg t tm fs = (if (!cfg.noGit) = true then update_gitignore fs2 else fs2) :=
  ⟨_, _, rfl, rfl, rfl⟩

/-- C6: a `CLAUDE.md` that already contains the task-system marker text (the
substrings `claude_tasks` and `BDD+TDD` tested by `_update_existing_claude_md`)
is left byte-for-byte unchanged by a run, with or without `--force`. -/
theorem C6_marker_file_untouched (cfg : Config) (t : Templates) (tm : Content)
    (fs : FS) (c₀ : Content) (h : fs.files "CLAUDE.md" = some c₀)
    (hm : hasTaskMarker c₀ = true) :
    (run cfg t tm fs).files "CLAUDE.md" = some c₀ := by
  obtain ⟨fs1, fs2, hfs1, hfs2, hrun⟩ := run_stages cfg t tm fs
  have h1 : fs1.files "CLAUDE.md" = some c₀ := by
    rw [hfs1]; split
    · rw [create_from_templates_files_special _ _ _ _ (Or.inl rfl),
        create_directory_structure_files]
      exact h
    · exact h
  have h2 : fs2.files "CLAUDE.md" = some c₀ := by
    rw [hfs2]; split
    · exact handle_claude_md_marker_preserve cfg.force tm fs1 c₀ h1 hm
    · exact h1
  rw [hrun]; split
  · rw [update_gitignore_files_ne _ _ (by decide : ("CLAUDE.md" : String) ≠ ".gitignore")]
    exact h2
  · exact h2

/-- C1 (amended): a run with `--force` against a target whose `CLAUDE.md`
exists creates no `CLAUDE.md.backup` — the backup branch of
`_update_existing_claude_md` requires `force` to be unset — and, when the
existing file lacks the marker, overwrites `CLAUDE.md` with the merged
content without any backup. -/
theorem C1_force_run_makes_no_backup (cfg : Config) (t : Templates) (tm : Content)
    (fs : FS) (hf : cfg.force = true) (hb : fs.files "CLAUDE.md.backup" = none) :
    (run cfg t tm fs).files "CLAUDE.md.backup" = none ∧
    (∀ c₀ : Content, fs.files "CLAUDE.md" = some c₀ → hasTaskMarker c₀ = false →
      (run cfg t tm fs).files "CLAUDE.md" = some (mergedClaudeMd c₀)) := by
  obtain ⟨fs1, fs2, hfs1, hfs2, hrun⟩ := run_stages cfg t tm fs
  rw [hf] at hfs1 hfs2
  simp only [Bool.or_true, eq_self_iff_true, if_true] at hfs1 hfs2
  constructor
  · have h1 : fs1.files "CLAUDE.md.backup" = none := by
      rw [hfs1, create_from_templates_files_special _ _ _ _ (Or.inr (Or.inl rfl)),
        create_directory_structure_files]
      exact hb
    have h2 : fs2.files "CLAUDE.md.backup" = none := by
      rw [hfs2]
      exact handle_claude_md_backup_of_force tm fs1 h1
    rw [hrun]; split
    · rw [update_gitignore_files_ne _ _
        (by decide : ("CLAUDE.md.backup" : String) ≠ ".gitignore")]
      exact h2
    · exact h2
  · intro c₀ hmd hm
    have h1 : fs1.files "CLAUDE.md" = some c₀ := by
      rw [hfs1, create_from_templates_files_special _ _ _ _ (Or.inl rfl),
        create_directory_structure_files]
      exact hmd
    have h2 : fs2.files "CLAUDE.md" = some (mergedClaudeMd c₀) := by
      rw [hfs2]
      exact handle_claude_md_force_merge tm fs1 c₀ h1 hm
    rw [hrun]; split
    · rw [update_gitignore_files_ne _ _ (by decide : ("CLAUDE.md" : String) ≠ ".gitignore")]
      exact h2
    · exact h2

/-- C5 (amended): in a run without `--force`, the content of every
pre-existing file is preserved: the file ends the run with its original
content, at most extended by an appended suffix (only `.gitignore` is ever
appended to; every other write targets a previously-absent path). -/
theorem C5_nonforce_preserves_content (cfg : Config) (t : Templates) (tm : Content)
    (fs : FS) (path : String) (c₀ : Content) (hf : cfg.force = false)
    (h : fs.files path = some c₀) :
    ∃ d : Content, (run cfg t tm fs).files path = some (c₀ ++ d) := by
  obtain ⟨fs1, fs2, hfs1, hfs2, hrun⟩ := run_stages cfg t tm fs
  rw [hf] at hfs1 hfs2
  simp only [Bool.or_false] at hfs1 hfs2
  have h1 : fs1.files path = some c₀ := by
    rw [hfs1]; split
    · exact create_from_templates_false_preserves t _ path c₀
        (by rw [create_directory_structure_files]; exact h)
    · exact h
  have hCMfile : fs1.files "CLAUDE.md" = fs.files "CLAUDE.md" := by
    rw [hfs1]; split
    · rw [create_from_templates_files_special _ _ _ _ (Or.inl rfl),
        create_directory_structure_files]
    · rfl
  have hCMdirs : fs1.dirs.contains "CLAUDE.md" = fs.dirs.contains "CLAUDE.md" := by
    rw [hfs1]; split
    · rw [create_from_templates_dirs, create_directory_structure_contains_claudeMd]
    · rfl
  have h2 : fs2.files path = some c₀ := by
    rw [hfs2]; split
    · rename_i hg
      have habs0 : fs.pathExists "CLAUDE.md" = false := by
        cases hx : fs.pathExists "CLAUDE.md"
        · rfl
        · rw [hx] at hg; simp at hg
      have habs1 : fs1.pathExists "CLAUDE.md" = false := by
        unfold FS.pathExists at habs0 ⊢
        rw [hCMfile, hCMdirs]
        exact habs0
      exact handle_claude_md_false_preserves tm fs1 path c₀ h1 habs1
    · exact h1
  rw [hrun]; split
  · by_cases hpath : path = ".gitignore"
    · subst hpath
      exact update_gitignore_append fs2 c₀ h2
    · exact ⟨[], by rw [List.append_nil, update_gitignore_files_ne _ _ hpath]; exact h2⟩
  · exact ⟨[], by rw [List.append_nil]; exact h2⟩

end ClaudeTasksSetup

/-! ## Line-splitting lemmas for the `CLAUDE.md` title-deduplication claim -/

/-- Splitting after the concrete title line: the merge prefix reduces. -/
theorem splitLines_title_cons (r : Content) :
    splitLines (strTitle ++ '\n' :: r) = strTitle :: splitLines r := rfl

/-- Splitting the reference section (which ends in a newline) followed by any
remainder yields its newline-terminated lines followed by the remainder's
lines. -/
theorem splitLines_reference_append (r : Content) :
    splitLines (ClaudeTasksSetup.reference_section ++ r)
      = refNewlineLines ++ splitLines r := rfl

/-- The merge of a file of the form `# CLAUDE.md\n<rest>` strips the heading
and prepends the reference section. -/
theorem mergedClaudeMd_title_cons (r : Content) :
    ClaudeTasksSetup.mergedClaudeMd (strTitle ++ '\n' :: r)
      = ClaudeTasksSetup.reference_section ++ r := rfl

/-- The reference section contains the title line exactly once. -/
theorem refNewlineLines_count : refNewlineLines.count strTitle = 1 := by decide

/-- A list of characters containing a newline splits at its first newline. -/
theorem dropWhile_newline_head (ex : Content) (h : '\n' ∈ ex) :
    ∃ r, ex.dropWhile (fun c => c != '\n') = '\n' :: r := by
  induction ex with
  | nil => cases h
  | cons c cs ih =>
    by_cases hc : c = '\n'
    · subst hc
      exact ⟨cs, by simp [List.dropWhile_cons]⟩
    · have hmem : '\n' ∈ cs := by
        rcases List.mem_cons.mp h with h' | h'
        · exact absurd h'.symm hc
        · exact h'
      obtain ⟨r, hr⟩ := ih hmem
      refine ⟨r, ?_⟩
      rw [List.dropWhile_cons]
      simp only [bne_iff_ne, ne_eq, hc, not_false_eq_true, if_true]
      exact hr

namespace ClaudeTasksSetup

/-- C7 (amended): for an existing `CLAUDE.md` that contains a newline, whose
first line equals the reference-block title line, and in which that title
line occurs only as the first line, the merged content produced by the
prepend operation contains exactly one occurrence of the title line. -/
theorem C7_merge_single_title (ex : Content) (hnl : ex.contains '\n' = true)
    (hfirst : firstLine ex = strTitle) (honce : titleCount ex = 1) :
    titleCount (mergedClaudeMd ex) = 1 := by
  obtain ⟨r, hr⟩ : ∃ r, ex.dropWhile (fun c => c != '\n') = '\n' :: r := by
    have hmem : '\n' ∈ ex := List.elem_iff.mp hnl
    exact dropWhile_newline_head ex hmem
  have hex : ex = strTitle ++ '\n' :: r := by
    conv_lhs => rw [← List.takeWhile_append_dropWhile (fun c => c != '\n') ex]
    rw [hr]
    have : ex.takeWhile (fun c => c != '\n') = strTitle := hfirst
    rw [this]
  have hr0 : (splitLines r).count strTitle = 0 := by
    have h1 := honce
    rw [titleCount, hex, splitLines_title_cons, List.count_cons_self] at h1
    omega
  rw [titleCount, hex, mergedClaudeMd_title_cons, splitLines_reference_append,
    List.count_append, refNewlineLines_count, hr0]

end ClaudeTasksSetup

/-! ## Counterexamples and concrete behaviour of the code -/

/-- C1 (counterexample): a `--force` run against a target whose `CLAUDE.md`
exists (content `hello`, no marker) overwrites the file with the merged
content but leaves no `CLAUDE.md.backup` behind — refuting the claim that a
backup equal to the pre-overwrite content exists after every force run. -/
theorem C1_cex_force_overwrite_without_backup :
    (fsWithClaudeMd (str "hello")).pathExists "CLAUDE.md" = true ∧
    (ClaudeTasksSetup.run cfgForceNoGit T0 [] (fsWithClaudeMd (str "hello"))).files
        "CLAUDE.md" = some (ClaudeTasksSetup.mergedClaudeMd (str "hello")) ∧
    (ClaudeTasksSetup.run cfgForceNoGit T0 [] (fsWithClaudeMd (str "hello"))).files
        "CLAUDE.md.backup" = none := by
  decide

/-- C2 (behaviour at the failing input): a run without `--force` against a
target whose `CLAUDE.md` is `# CLAUDE.md\nExisting content` (no marker)
leaves the file byte-for-byte unchanged and creates no `CLAUDE.md.backup`:
`run` skips the `CLAUDE.md` step entirely because the file exists, so the
`PRESENT_NO_MARKER` state never transitions to `BACKED_UP_AND_PREPENDED`. -/
theorem C2_nonforce_run_skips_existing_claude_md :
    (ClaudeTasksSetup.run cfgPlain T0 []
        (fsOnlyClaudeMd (str "# CLAUDE.md\nExisting content"))).files "CLAUDE.md"
      = some (str "# CLAUDE.md\nExisting content") ∧
    (ClaudeTasksSetup.run cfgPlain T0 []
        (fsOnlyClaudeMd (str "# CLAUDE.md\nExisting content"))).files "CLAUDE.md.backup"
      = none := by
  decide

/-- C3 (behaviour at the failing input): starting from an empty target with
default flags, the first run creates `.gitignore` with the tool's block, and
an immediately repeated identical run appends the block a second time — the
second run changes the filesystem, refuting idempotence.  (The guard checks
for the substring `claude_tasks`, which the entries it writes never
contain.) -/
theorem C3_second_run_appends_gitignore_again :
    (ClaudeTasksSetup.run cfgPlain T0 [] fsEmpty).files ".gitignore"
      = some gitignoreBlock ∧
    (ClaudeTasksSetup.run cfgPlain T0 []
        (ClaudeTasksSetup.run cfgPlain T0 [] fsEmpty)).files ".gitignore"
      = some (gitignoreBlock ++ gitignoreBlock) := by
  decide

/-- C4 (behaviour at the failing input): against a target whose `.gitignore`
already contains the tool's marker comment header `# Claude task management`
(here: exactly the tool's own block), a run appends a second copy of the
entries instead of skipping the update. -/
theorem C4_marker_header_present_but_entries_reappended :
    strContains gitignoreBlock (str "# Claude task management") = true ∧
    (ClaudeTasksSetup.run cfgPlain T0 [] fsWithOwnGitignore).files ".gitignore"
      = some (gitignoreBlock ++ gitignoreBlock) := by
  decide

/-- C5 (counterexample): (i) without `--force`, the run writes to the
pre-existing `.gitignore` (appending the tool's block), violating the
"write only when absent or forced" guard as stated; (ii) with `--force`,
the `CLAUDE.md` merge path replaces the file's content without any
`.backup` copy having been taken. -/
theorem C5_cex_unguarded_append_and_forced_merge_without_backup :
    (fsUserGitignore.files ".gitignore" = some (str "node_modules\n") ∧
      (ClaudeTasksSetup.run cfgPlain T0 [] fsUserGitignore).files ".gitignore"
        = some (str "node_modules\n" ++ gitignoreBlock) ∧
      (ClaudeTasksSetup.run cfgPlain T0 [] fsUserGitignore).files ".gitignore"
        ≠ some (str "node_modules\n")) ∧
    ((ClaudeTasksSetup.run cfgForceNoGit T0 []
        (fsWithClaudeMd (str "# CLAUDE.md\nMy notes"))).files "CLAUDE.md"
        ≠ some (str "# CLAUDE.md\nMy notes") ∧
      (ClaudeTasksSetup.run cfgForceNoGit T0 []
        (fsWithClaudeMd (str "# CLAUDE.md\nMy notes"))).files "CLAUDE.md.backup"
        = none) := by
  decide

/-- C7 (counterexample): two existing files whose first line equals the
title line but whose merge contains the title line twice: a file that is
exactly `# CLAUDE.md` with no newline (Python's `find`-based strip keeps the
whole string), and a file that repeats the title further down. -/
theorem C7_cex_merged_title_twice :
    (firstLine (str "# CLAUDE.md") = strTitle ∧
      titleCount (ClaudeTasksSetup.mergedClaudeMd (str "# CLAUDE.md")) = 2) ∧
    (firstLine (str "# CLAUDE.md\nx\n# CLAUDE.md") = strTitle ∧
      titleCount (ClaudeTasksSetup.mergedClaudeMd
        (str "# CLAUDE.md\nx\n# CLAUDE.md")) = 2) := by
  decide

/-- C8: after any clone attempt by either installer — success, git failure,
or (for the dashboard clone) timeout, with or without a failing copy step —
the temporary scratch directory created for the clone no longer exists. -/
theorem C8_scratch_directory_removed :
    (∀ (isUrl localSourceExists : Bool) (clone : ClaudeTasksSetup.CloneOutcome)
        (copyRaises : Bool),
      (ClaudeTasksSetup.copy_from_source isUrl localSourceExists clone copyRaises).2
        = false) ∧
    (∀ (clone : TestDashboardSetup.CloneOutcome) (copyRaises : Bool),
      (TestDashboardSetup.clone_dashboard clone copyRaises).2 = false) := by
  constructor
  · intro isUrl lse clone cr
    cases isUrl <;> cases lse <;> cases clone <;> cases cr <;> rfl
  · intro clone cr
    cases clone <;> cases cr <;> rfl

/-- C9: if either prerequisite installer script is missing, the orchestrator
aborts before attempting any installation and its report names the missing
file, exiting 1; otherwise (with both sub-installers selected) both run —
a failure of one does not prevent the other — their exit statuses are
combined by logical AND, and the process exit code is 0 on full success and
1 on any (including partial) failure. -/
theorem C9_orchestrator (cfg : AIInitSetup.Config) (env : AIInitSetup.Env) :
    ((env.claudeInstallerOnDisk = false ∨ env.dashboardInstallerOnDisk = false) →
      (AIInitSetup.run cfg env).claudeRan = false ∧
      (AIInitSetup.run cfg env).dashboardRan = false ∧
      (env.claudeInstallerOnDisk = false →
        "Claude installer" ∈ (AIInitSetup.run cfg env).missing) ∧
      (env.dashboardInstallerOnDisk = false →
        "Dashboard installer" ∈ (AIInitSetup.run cfg env).missing) ∧
      AIInitSetup.exitCode cfg env = 1) ∧
    (env.claudeInstallerOnDisk = true → env.dashboardInstallerOnDisk = true →
      cfg.claudeOnly = false → cfg.dashboardOnly = false →
      (AIInitSetup.run cfg env).claudeRan = true ∧
      (AIInitSetup.run cfg env).dashboardRan = true ∧
      (AIInitSetup.run cfg env).success
        = (env.claudeInstallerExitZero && env.dashboardInstallerExitZero) ∧
      AIInitSetup.exitCode cfg env
        = (if env.claudeInstallerExitZero && env.dashboardInstallerExitZero
            then 0 else 1)) := by
  obtain ⟨co, dso⟩ := cfg
  obtain ⟨ce, de, cz, dz⟩ := env
  constructor
  · intro hmiss
    cases ce <;> cases de <;>
      simp_all [AIInitSetup.run, AIInitSetup.validate_installers, AIInitSetup.exitCode]
  · intro h1 h2 h3 h4
    subst h1; subst h2; subst h3; subst h4
    simp [AIInitSetup.run, AIInitSetup.validate_installers, AIInitSetup.exitCode]

namespace TestDashboardSetup

theorem dictGet_dictSet_self (d : List (String × Json)) (k : String) (v : Json) :
    dictGet (dictSet d k v) k = some v := by
  induction d with
  | nil => simp [dictSet, dictGet]
  | cons kv rest ih =>
    by_cases h : kv.1 = k
    · simp [dictSet, dictGet, h]
    · simp [dictSet, dictGet, h, ih]

theorem dictGet_dictSet_ne (d : List (String × Json)) (k k' : String) (v : Json)
    (h : k' ≠ k) : dictGet (dictSet d k v) k' = dictGet d k' := by
  induction d with
  | nil => simp [dictSet, dictGet, Ne.symm h]
  | cons kv rest ih =>
    by_cases hk : kv.1 = k
    · simp [dictSet, dictGet, hk, Ne.symm h]
    · simp [dictSet, dictGet, hk, ih]

end TestDashboardSetup

/-- C10 (amended): the `package.json` patch rewrites `name` to
`<target>-test-dashboard` and `description` to
`Test dashboard for <target> project (from <original name>)` — both
referencing the host project; additionally, when the copied `package.json`
has no `repository` field, one pointing at the upstream repository is added;
every other field — including a pre-existing `repository` — keeps its
previous value. -/
theorem C10_package_json_patch (targetName : String)
    (pkg : List (String × TestDashboardSetup.Json)) (k : String)
    (h1 : k ≠ "name") (h2 : k ≠ "description") (h3 : k ≠ "repository") :
    TestDashboardSetup.dictGet (TestDashboardSetup.update_package_json targetName pkg) k
      = TestDashboardSetup.dictGet pkg k ∧
    TestDashboardSetup.dictGet (TestDashboardSetup.update_package_json targetName pkg)
        "name"
      = some (TestDashboardSetup.Json.str (targetName ++ "-test-dashboard")) ∧
    TestDashboardSetup.dictGet (TestDashboardSetup.update_package_json targetName pkg)
        "description"
      = some (TestDashboardSetup.Json.str
          ("Test dashboard for " ++ targetName ++ " project (from " ++
            TestDashboardSetup.originalName pkg ++ ")")) ∧
    (∀ v : TestDashboardSetup.Json,
      TestDashboardSetup.dictGet pkg "repository" = some v →
      TestDashboardSetup.dictGet (TestDashboardSetup.update_package_json targetName pkg)
          "repository" = some v) ∧
    (TestDashboardSetup.dictGet pkg "repository" = none →
      TestDashboardSetup.dictGet (TestDashboardSetup.update_package_json targetName pkg)
          "repository"
        = some (TestDashboardSetup.Json.obj
            [("type", TestDashboardSetup.Json.str "git"),
             ("url", TestDashboardSetup.Json.str TestDashboardSetup.repo_url)])) := by
  simp only [TestDashboardSetup.update_package_json]
  refine ⟨?_, ?_, ?_, ?_, ?_⟩
  · split
    · rw [TestDashboardSetup.dictGet_dictSet_ne _ _ _ _ h2,
        TestDashboardSetup.dictGet_dictSet_ne _ _ _ _ h1]
    · rw [TestDashboardSetup.dictGet_dictSet_ne _ _ _ _ h3,
        TestDashboardSetup.dictGet_dictSet_ne _ _ _ _ h2,
        TestDashboardSetup.dictGet_dictSet_ne _ _ _ _ h1]
  · split
    · rw [TestDashboardSetup.dictGet_dictSet_ne _ _ _ _
          (by decide : ("name" : String) ≠ "description"),
        TestDashboardSetup.dictGet_dictSet_self]
    · rw [TestDashboardSetup.dictGet_dictSet_ne _ _ _ _
          (by decide : ("name" : String) ≠ "repository"),
        TestDashboardSetup.dictGet_dictSet_ne _ _ _ _
          (by decide : ("name" : String) ≠ "description"),
        TestDashboardSetup.dictGet_dictSet_self]
  · split
    · exact TestDashboardSetup.dictGet_dictSet_self _ _ _
    · rw [TestDashboardSetup.dictGet_dictSet_ne _ _ _ _
          (by decide : ("description" : String) ≠ "repository"),
        TestDashboardSetup.dictGet_dictSet_self]
  · intro v hv
    split
    · rw [TestDashboardSetup.dictGet_dictSet_ne _ _ _ _
          (by decide : ("repository" : String) ≠ "description"),
        TestDashboardSetup.dictGet_dictSet_ne _ _ _ _
          (by decide : ("repository" : String) ≠ "name")]
      exact hv
    · rename_i hnone
      exfalso
      rw [TestDashboardSetup.dictGet_dictSet_ne _ _ _ _
          (by decide : ("repository" : String) ≠ "description"),
        TestDashboardSetup.dictGet_dictSet_ne _ _ _ _
          (by decide : ("repository" : String) ≠ "name"), hv] at hnone
      simp at hnone
  · intro hnone
    split
    · rename_i hsome
      exfalso
      rw [TestDashboardSetup.dictGet_dictSet_ne _ _ _ _
          (by decide : ("repository" : String) ≠ "description"),
        TestDashboardSetup.dictGet_dictSet_ne _ _ _ _
          (by decide : ("repository" : String) ≠ "name"), hnone] at hsome
      simp at hsome
    · rw [TestDashboardSetup.dictGet_dictSet_self]

/-- C10 (counterexample): on a `package.json` with no `repository` field the
patch changes a third field — it adds `repository` — so "exactly two fields
are changed" fails. -/
theorem C10_cex_repository_field_added :
    TestDashboardSetup.dictGet pkgSample "repository" = none ∧
    TestDashboardSetup.dictGet
        (TestDashboardSetup.update_package_json "myproj" pkgSample) "repository"
      = some (TestDashboardSetup.Json.obj
          [("type", TestDashboardSetup.Json.str "git"),
           ("url", TestDashboardSetup.Json.str TestDashboardSetup.repo_url)]) :=
  ⟨rfl, rfl⟩

/-! ## Witnesses -/

/-- Witness for C1's amended theorem at a concrete force run. -/
theorem C1_force_run_makes_no_backup_witness :
    (ClaudeTasksSetup.run cfgForceNoGit T0 [] (fsWithClaudeMd (str "hello"))).files
        "CLAUDE.md.backup" = none ∧
    (ClaudeTasksSetup.run cfgForceNoGit T0 [] (fsWithClaudeMd (str "hello"))).files
        "CLAUDE.md" = some (ClaudeTasksSetup.mergedClaudeMd (str "hello")) :=
  ⟨(ClaudeTasksSetup.C1_force_run_makes_no_backup cfgForceNoGit T0 []
      (fsWithClaudeMd (str "hello")) rfl (by decide)).1,
   (ClaudeTasksSetup.C1_force_run_makes_no_backup cfgForceNoGit T0 []
      (fsWithClaudeMd (str "hello")) rfl (by decide)).2
     (str "hello") (by decide) (by decide)⟩

/-- Witness for C5's amended theorem: the pre-existing `.gitignore` survives
a plain run as a prefix of the new content. -/
theorem C5_nonforce_preserves_content_witness :
    ∃ d : Content,
      (ClaudeTasksSetup.run cfgPlain T0 [] fsUserGitignore).files ".gitignore"
        = some (str "node_modules\n" ++ d) :=
  ClaudeTasksSetup.C5_nonforce_preserves_content cfgPlain T0 [] fsUserGitignore
    ".gitignore" (str "node_modules\n") rfl (by decide)

/-- Witness for C6 at a concrete marker-bearing `CLAUDE.md`. -/
theorem C6_marker_file_untouched_witness :
    (ClaudeTasksSetup.run cfgPlain T0 []
        (fsWithClaudeMd (str "claude_tasks and BDD+TDD"))).files "CLAUDE.md"
      = some (str "claude_tasks and BDD+TDD") :=
  ClaudeTasksSetup.C6_marker_file_untouched cfgPlain T0 []
    (fsWithClaudeMd (str "claude_tasks and BDD+TDD"))
    (str "claude_tasks and BDD+TDD") (by decide) (by decide)

/-- Witness for C7's amended theorem at a concrete merge input. -/
theorem C7_merge_single_title_witness :
    titleCount (ClaudeTasksSetup.mergedClaudeMd
      (str "# CLAUDE.md\nExisting content")) = 1 :=
  ClaudeTasksSetup.C7_merge_single_title (str "# CLAUDE.md\nExisting content")
    (by decide) (by decide) (by decide)

/-- Witness for C9 at a concrete environment where the first sub-installer
fails and the second still runs, giving a partial failure and exit code 1. -/
theorem C9_orchestrator_witness :
    (AIInitSetup.run ⟨false, false⟩ ⟨true, true, false, true⟩).claudeRan = true ∧
    (AIInitSetup.run ⟨false, false⟩ ⟨true, true, false, true⟩).dashboardRan = true ∧
    (AIInitSetup.run ⟨false, false⟩ ⟨true, true, false, true⟩).success
      = (false && true) ∧
    AIInitSetup.exitCode ⟨false, false⟩ ⟨true, true, false, true⟩
      = (if false && true then 0 else 1) :=
  (C9_orchestrator ⟨false, false⟩ ⟨true, true, false, true⟩).2 rfl rfl rfl rfl

/-- Witness for C10's amended theorem at a concrete `package.json`: the
`version` field is untouched and the description is rewritten to the
host-referencing text. -/
theorem C10_package_json_patch_witness :
    TestDashboardSetup.dictGet
        (TestDashboardSetup.update_package_json "myproj" pkgSample) "version"
      = TestDashboardSetup.dictGet pkgSample "version" ∧
    TestDashboardSetup.dictGet
        (TestDashboardSetup.update_package_json "myproj" pkgSample) "description"
      = some (TestDashboardSetup.Json.str
          "Test dashboard for myproj project (from test-dd-dashboard)") :=
  ⟨(C10_package_json_patch "myproj" pkgSample "version"
      (by decide) (by decide) (by decide)).1,
   (C10_package_json_patch "myproj" pkgSample "version"
      (by decide) (by decide) (by decide)).2.2.1⟩
